import Mathlib

/-!
Verification of the conversation-memory and buyer-journey engine of the
rusty-enhanced-bot repository.  The Python sources
(enhanced_memory_manager.py and app_enhanced_rusty.py) are shallowly
embedded below: dictionaries become structures with optional fields,
datetimes become integer second counts, and the database is modelled as an
explicit list of rows passed to the functions that touch it.
-/

namespace Rusty

/-! ### String helpers, mirroring the Python primitives used by the code:
str.lower, the substring operator, str.count, str.split. -/

/-- Python str.lower (ASCII range, which covers every keyword the code uses). -/
def lowerStr (s : String) : String := String.mk (s.data.map Char.toLower)

/-- Match a literal prefix, returning the remainder on success. -/
def matchHead : List Char → List Char → Option (List Char)
  | [], l => some l
  | _ :: _, [] => none
  | p :: ps, c :: cs => if c = p then matchHead ps cs else none

/-- Occurrence of a needle at any position of a haystack. -/
def subSearch (needle : List Char) : List Char → Bool
  | [] => (matchHead needle []).isSome
  | c :: cs => (matchHead needle (c :: cs)).isSome || subSearch needle cs

/-- Python substring test, as in: word in message_lower. -/
def strContains (hay needle : String) : Bool := subSearch needle.data hay.data

/-- Python any(word in message for word in words). -/
def containsAny (hay : String) (needles : List String) : Bool :=
  needles.any (fun w => strContains hay w)

/-- Python message.count(c) for a single character. -/
def countChar (s : String) (c : Char) : Nat :=
  (s.data.filter (fun d => d = c)).length

/-- Length of Python message.split(): number of maximal whitespace-free runs. -/
def wordCount (s : String) : Nat :=
  (s.data.foldl
    (fun (acc : Nat × Bool) c =>
      if c.isWhitespace then (acc.1, false)
      else if acc.2 then (acc.1, true) else (acc.1 + 1, true))
    (0, false)).1

/-- The apostrophe character, used by the size and name patterns. -/
def apos : Char := Char.ofNat 39

/-! ### Key facts

The key_facts dictionary of a record.  Each optional field models presence
of the corresponding dictionary key; the code only ever stores the values
enumerated here (enhanced_memory_manager.py, _extract_key_facts). -/

structure KeyFacts where
  focus : Option String
  budget_conscious : Option Bool
  pool_type : Option String
  preferred_size : Option String
  features : Option (List String)
  timeline_interest : Option Bool
  space_concerns : Option Bool
deriving DecidableEq

def KeyFacts.empty : KeyFacts := ⟨none, none, none, none, none, none, none⟩

/-- Python len(key_facts): the number of dictionary keys present. -/
def key_facts_count (kf : KeyFacts) : Nat :=
  (if kf.focus.isSome then 1 else 0) +
  (if kf.budget_conscious.isSome then 1 else 0) +
  (if kf.pool_type.isSome then 1 else 0) +
  (if kf.preferred_size.isSome then 1 else 0) +
  (if kf.features.isSome then 1 else 0) +
  (if kf.timeline_interest.isSome then 1 else 0) +
  (if kf.space_concerns.isSome then 1 else 0)

/-! ### The preferred-size patterns

Embedding of re.search(r"12\s*x\s*24|12'?\s*x\s*24'?|12\s*by\s*24", msg,
re.IGNORECASE) and its 14x28 twin, run here on the lowered message (the
letters of the pattern are lowercase, digits and punctuation are unchanged
by lowering, so this is equivalent to IGNORECASE on the original). -/

/-- Drop a maximal run of whitespace (the \s* parts of the pattern). -/
def dropSpaces : List Char → List Char
  | c :: cs => if c.isWhitespace then dropSpaces cs else c :: cs
  | [] => []

/-- Try the size pattern at one position: first dimension, then either an
optional apostrophe, spaces and an x, or spaces and the word by, then
spaces and the second dimension. -/
def trySizeAt (d1 d2 : List Char) (l : List Char) : Bool :=
  match matchHead d1 l with
  | none => false
  | some r =>
    let xBranch :=
      let r1 := match r with
        | c :: cs => if c = apos then cs else c :: cs
        | [] => []
      match dropSpaces r1 with
      | 'x' :: r2 => (matchHead d2 (dropSpaces r2)).isSome
      | _ => false
    let byBranch :=
      match dropSpaces r with
      | 'b' :: 'y' :: r2 => (matchHead d2 (dropSpaces r2)).isSome
      | _ => false
    xBranch || byBranch

/-- re.search over the whole message: try the pattern at every position. -/
def sizeSearch (d1 d2 : List Char) : List Char → Bool
  | [] => false
  | c :: cs => trySizeAt d1 d2 (c :: cs) || sizeSearch d1 d2 cs

/-! ### Fact extraction (enhanced_memory_manager.py, _extract_key_facts)

The per-fact blocks of the Python function, in source order. -/

def update_focus (message_lower : String) (kf : KeyFacts) : KeyFacts :=
  if containsAny message_lower ["relax", "relaxing", "peaceful", "quiet", "unwind"] then
    { kf with focus := some "relaxation" }
  else if containsAny message_lower
      ["entertain", "entertaining", "party", "friends", "gather", "host"] then
    { kf with focus := some "entertaining" }
  else if containsAny message_lower ["family", "kids", "children", "grandkids"] then
    { kf with focus := some "family" }
  else if strContains message_lower "both" &&
      containsAny message_lower ["relax", "entertain"] then
    { kf with focus := some "both" }
  else kf

def update_budget (user_message message_lower : String) (kf : KeyFacts) : KeyFacts :=
  if containsAny message_lower
      ["budget", "cost", "price", "expensive", "affordable", "cheap", "financing", "payment"]
      || strContains user_message "$" then
    { kf with budget_conscious := some true }
  else kf

def update_pool_type (message_lower : String) (kf : KeyFacts) : KeyFacts :=
  if strContains message_lower "cocktail pool" || strContains message_lower "cocktail" then
    { kf with pool_type := some "cocktail" }
  else if strContains message_lower "semi" && strContains message_lower "ground" then
    { kf with pool_type := some "semi-inground" }
  else if strContains message_lower "custom" then
    { kf with pool_type := some "custom" }
  else kf

def update_preferred_size (message_lower : String) (kf : KeyFacts) : KeyFacts :=
  if sizeSearch ['1', '2'] ['2', '4'] message_lower.data then
    { kf with preferred_size := some "12x24" }
  else if sizeSearch ['1', '4'] ['2', '8'] message_lower.data then
    { kf with preferred_size := some "14x28" }
  else kf

/-- The feature_map dictionary, in its Python insertion order. -/
def feature_map : List (String × List String) :=
  [("tanning ledge", ["tanning ledge", "tanning shelf", "sun shelf", "ledge"]),
   ("wraparound bench", ["bench", "seating", "wraparound", "built-in seating"]),
   ("lighting", ["lighting", "lights", "underwater lights", "led"]),
   ("heating", ["heated", "heating", "heater", "warm", "year-round"]),
   ("jets", ["jets", "hydrotherapy", "massage", "spa jets"]),
   ("fountains", ["fountain", "water feature", "bubblers", "spillover"])]

/-- The feature loop: setdefault the features key to an empty list, then
append each newly matched feature name not already present. -/
def update_features (message_lower : String) (kf : KeyFacts) : KeyFacts :=
  let features0 := kf.features.getD []
  let features := feature_map.foldl
    (fun fs p =>
      if p.2.any (fun k => strContains message_lower k) && !(fs.contains p.1) then
        fs ++ [p.1]
      else fs)
    features0
  { kf with features := some features }

def update_timeline (message_lower : String) (kf : KeyFacts) : KeyFacts :=
  if containsAny message_lower
      ["timeline", "when", "how long", "schedule", "start", "soon", "ready"] then
    { kf with timeline_interest := some true }
  else kf

def update_space (message_lower : String) (kf : KeyFacts) : KeyFacts :=
  if containsAny message_lower
      ["space", "yard", "backyard", "small", "tight", "fit", "room"] then
    { kf with space_concerns := some true }
  else kf

def extract_facts (kf : KeyFacts) (user_message : String) : KeyFacts :=
  let message_lower := lowerStr user_message
  update_space message_lower
    (update_timeline message_lower
      (update_features message_lower
        (update_preferred_size message_lower
          (update_pool_type message_lower
            (update_budget user_message message_lower
              (update_focus message_lower kf))))))

/-! ### The conversation record

One row of the user_memories table / the default_memory dictionary of
load_memory.  Timestamps are integer second counts; buyer_stage holds the
four values the code ever stores. -/

inductive BuyerStage where
  | browsing
  | interested
  | considering
  | ready
deriving DecidableEq

/-- Position of a stage in the funnel order browsing < interested <
considering < ready. -/
def stage_order : BuyerStage → Nat
  | .browsing => 0
  | .interested => 1
  | .considering => 2
  | .ready => 3

structure Interaction where
  timestamp : Int
  user : String
  bot : String
deriving DecidableEq

structure CtaAttempt where
  timestamp : Int
  type : String
  response : String
deriving DecidableEq

structure ContactInfo where
  name : Option String
  email : Option String
  phone : Option String
  photo : Option String
deriving DecidableEq

def ContactInfo.empty : ContactInfo := ⟨none, none, none, none⟩

/-- Python truthiness of contact_info.get(field): the key is present and
its value is a non-empty string. -/
def truthy : Option String → Bool
  | none => false
  | some s => !s.isEmpty

/-- contact_info.get(field) for the four field names the code uses. -/
def contact_get (ci : ContactInfo) (field : String) : Option String :=
  if field = "name" then ci.name
  else if field = "email" then ci.email
  else if field = "phone" then ci.phone
  else if field = "photo" then ci.photo
  else none

structure Memory where
  user_id : String
  created_at : Int
  last_updated : Int
  interactions : List Interaction
  key_facts : KeyFacts
  conversation_summary : String
  preferences : List (String × String)
  buyer_stage : BuyerStage
  engagement_level : Nat
  render_requested : Bool
  render_status : Option String
  render_details : List (String × String)
  contact_info : ContactInfo
  cta_attempts : List CtaAttempt
  last_cta_attempt : Option Int
deriving DecidableEq

/-- The default_memory dictionary built at the top of load_memory. -/
def default_memory (user_id : String) (now : Int) : Memory :=
  { user_id := user_id
    created_at := now
    last_updated := now
    interactions := []
    key_facts := KeyFacts.empty
    conversation_summary := ""
    preferences := []
    buyer_stage := .browsing
    engagement_level := 1
    render_requested := false
    render_status := none
    render_details := []
    contact_info := ContactInfo.empty
    cta_attempts := []
    last_cta_attempt := none }

/-! ### Memory store (load_memory, cleanup_expired_memories)

The database row fetched for an id is passed in explicitly: none models an
absent row, and the Except layer models a raised psycopg2 exception.  The
expiry window timedelta(days=expiry_days) is expiry_days * 86400 seconds. -/

/-- load_memory once a row (or no row) has been fetched: an expired row or
a missing row yields the defaults; the typed record has every field, which
models the backfill-defaults loop. -/
def load_memory (expiry_days : Int) (user_id : String) (now : Int)
    (fetched : Option Memory) : Memory :=
  match fetched with
  | some result =>
    if now - result.last_updated > expiry_days * 86400 then default_memory user_id now
    else result
  | none => default_memory user_id now

inductive StoreError where
  | connection_failure
  | timeout
deriving DecidableEq

/-- load_memory including its except-clause: any store exception is caught,
logged, and the defaults are returned (enhanced_memory_manager.py lines
144-146). -/
def load_memory_result (expiry_days : Int) (user_id : String) (now : Int)
    (fetched : Except StoreError (Option Memory)) : Memory :=
  match fetched with
  | .ok f => load_memory expiry_days user_id now f
  | .error _ => default_memory user_id now

/-- cleanup_expired_memories over an explicit table of rows: deletes rows
with last_updated < now - expiry window and returns the remaining table
together with the deleted-row count. -/
def cleanup_expired_memories (expiry_days : Int) (now : Int)
    (store : List Memory) : List Memory × Nat :=
  let cutoff := now - expiry_days * 86400
  ((store.filter fun r => !(decide (r.last_updated < cutoff))),
   (store.filter fun r => decide (r.last_updated < cutoff)).length)

/-! ### Stage, engagement, interactions
(enhanced_memory_manager.py, _update_buyer_stage, _update_engagement_level,
add_interaction) -/

/-- The phrase let apostrophe-s do, built characterwise to keep the literal
faithful. -/
def lets_do : String := String.mk ['l', 'e', 't', apos, 's', ' ', 'd', 'o']

def update_buyer_stage (m : Memory) (user_message : String) : Memory :=
  let message_lower := lowerStr user_message
  match m.buyer_stage with
  | .browsing =>
    if containsAny message_lower
        ["size", "cost", "price", "timeline", "process", "how long", "when", "schedule"] then
      { m with buyer_stage := .interested }
    else if containsAny message_lower
        ["ready", "interested", "want", "need", "planning", "thinking about"] then
      { m with buyer_stage := .interested }
    else m
  | .interested =>
    if containsAny message_lower ["timeline", "schedule", "when can", "how soon"] then
      { m with buyer_stage := .considering }
    else if 3 ≤ key_facts_count m.key_facts then
      { m with buyer_stage := .considering }
    else m
  | .considering =>
    if containsAny message_lower ["ready", lets_do, "schedule", "visit", "consult"] then
      { m with buyer_stage := .ready }
    else m
  | .ready => m

/-- The engagement score: three signals, each capped at one.  The Python
float literals 0.5 and 0.3 and the division by 20 are modelled as exact
rationals. -/
def engagement_score (user_message : String) : ℚ :=
  let message_lower := lowerStr user_message
  let question_count := countChar user_message '?'
  let specific_terms :=
    (["size", "cost", "feature", "timeline", "process"].filter
      fun t => strContains message_lower t).length
  let message_length := wordCount user_message
  min ((question_count : ℚ) * (1 / 2)) 1 +
    min ((specific_terms : ℚ) * (3 / 10)) 1 +
    min ((message_length : ℚ) / 20) 1

def update_engagement_level (m : Memory) (user_message : String) : Memory :=
  let current_level := m.engagement_level
  let new_level :=
    min 5 (max current_level
      (Int.floor ((current_level : ℚ) + engagement_score user_message)).toNat)
  { m with engagement_level := new_level }

/-- The record-level fact extractor: updates the key_facts dictionary of
the record in place, as _extract_key_facts does. -/
def extract_key_facts (m : Memory) (user_message : String) : Memory :=
  { m with key_facts := extract_facts m.key_facts user_message }

/-- add_interaction: append the turn, prune to the most recent
max_interactions entries, then extract facts and update stage and
engagement, in that order. -/
def add_interaction (max_interactions : Nat) (m : Memory)
    (user_message bot_response : String) (now : Int) : Memory :=
  let interactions := m.interactions ++ [⟨now, user_message, bot_response⟩]
  let interactions :=
    if max_interactions < interactions.length then
      interactions.drop (interactions.length - max_interactions)
    else interactions
  let m := { m with interactions := interactions }
  let m := extract_key_facts m user_message
  let m := update_buyer_stage m user_message
  update_engagement_level m user_message

/-! ### CTA gate and attempt recording
(enhanced_memory_manager.py, should_attempt_cta, record_cta_attempt) -/

def should_attempt_cta (m : Memory) (now : Int) : Bool × Option String :=
  let cooldown := match m.last_cta_attempt with
    | some t => decide (now - t < 300)
    | none => false
  if cooldown then (false, none)
  else if 2 ≤ (m.cta_attempts.filter fun a => decide (now - a.timestamp < 3600)).length then
    (false, none)
  else if (m.buyer_stage = .considering ∨ m.buyer_stage = .ready) ∧ 3 ≤ m.engagement_level then
    (true, some "consult")
  else if m.buyer_stage = .interested ∧ 2 ≤ m.engagement_level ∧
      m.key_facts.space_concerns = some true then
    (true, some "render")
  else if 4 ≤ m.interactions.length ∧ 3 ≤ m.engagement_level then
    (true, some "consult")
  else (false, none)

def record_cta_attempt (m : Memory) (cta_type response : String) (now : Int) : Memory :=
  let attempt : CtaAttempt := ⟨now, cta_type, lowerStr response⟩
  let m := { m with
    cta_attempts := m.cta_attempts ++ [attempt]
    last_cta_attempt := some now }
  let rl := lowerStr response
  if strContains rl "yes" || strContains rl "sure" || strContains rl "okay" then
    if cta_type = "consult" then { m with buyer_stage := .ready }
    else if cta_type = "render" then
      { m with render_requested := true, render_status := some "info_needed" }
    else m
  else m

/-! ### Render workflow
(enhanced_memory_manager.py get_render_workflow_stage and
update_contact_info; app_enhanced_rusty.py process_contact_info,
get_missing_contact_fields and handle_render_workflow) -/

def required_fields : List String := ["name", "email", "phone", "photo"]

def get_render_workflow_stage (m : Memory) : String :=
  if !m.render_requested then "not_requested"
  else if m.render_status = some "complete" then "complete"
  else if m.render_status = some "in_progress" then "in_progress"
  else if required_fields.all (fun f => truthy (contact_get m.contact_info f)) then "complete"
  else if required_fields.any (fun f => truthy (contact_get m.contact_info f)) then
    "collecting_info"
  else "info_needed"

def update_contact_info (m : Memory) (field value : String) : Memory :=
  let ci := m.contact_info
  let ci :=
    if field = "name" then { ci with name := some value }
    else if field = "email" then { ci with email := some value }
    else if field = "phone" then { ci with phone := some value }
    else if field = "photo" then { ci with photo := some value }
    else ci
  let m := { m with contact_info := ci }
  if required_fields.all (fun f => truthy (contact_get ci f)) then
    { m with render_status := some "complete" }
  else m

/-! Contact-field scanners of process_contact_info.  The email, phone and
name regular expressions of app_enhanced_rusty.py are embedded as direct
character scanners; the word-boundary anchors of the email pattern are
dropped, which no claim depends on. -/

def isLocalChar (c : Char) : Bool :=
  c.isAlphanum || c = '.' || c = '_' || c = '%' || c = '+' || c = '-'

def isDomainChar (c : Char) : Bool := c.isAlphanum || c = '.' || c = '-'

/-- The domain must contain a dot followed by at least two letters. -/
def emailDomainOk : List Char → Bool
  | [] => false
  | c :: cs => (c = '.' && 2 ≤ (cs.takeWhile Char.isAlpha).length) || emailDomainOk cs

/-- Try the email pattern at one position: local part, at sign, domain. -/
def tryEmailAt (l : List Char) : Option (List Char) :=
  let loc := l.takeWhile isLocalChar
  match loc, l.drop loc.length with
  | _ :: _, '@' :: r2 =>
    let dom := r2.takeWhile isDomainChar
    if emailDomainOk dom then some (loc ++ '@' :: dom) else none
  | _, _ => none

/-- Generic leftmost-match scanner, as in re.search / re.findall()[0]. -/
def scanFirst (f : List Char → Option (List Char)) : List Char → Option (List Char)
  | [] => f []
  | c :: cs =>
    match f (c :: cs) with
    | some r => some r
    | none => scanFirst f cs

/-- Take exactly n digits, returning them and the remainder. -/
def takeDigits : Nat → List Char → Option (List Char × List Char)
  | 0, l => some ([], l)
  | n + 1, c :: cs =>
    if c.isDigit then (takeDigits n cs).map (fun p => (c :: p.1, p.2)) else none
  | _ + 1, [] => none

/-- A phone separator: dash, dot or whitespace. -/
def isSep (c : Char) : Bool := c = '-' || c = '.' || c.isWhitespace

/-- Try the phone pattern at one position: optional opening parenthesis,
three digits, optional closing parenthesis, optional separator, three
digits, optional separator, four digits. -/
def tryPhoneAt (l : List Char) : Option (List Char) :=
  let l1 := match l with
    | '(' :: r => r
    | _ => l
  (takeDigits 3 l1).bind fun p1 =>
  let r := match p1.2 with
    | ')' :: t => t
    | _ => p1.2
  let r := match r with
    | c :: t => if isSep c then t else c :: t
    | [] => []
  (takeDigits 3 r).bind fun p2 =>
  let r2 := match p2.2 with
    | c :: t => if isSep c then t else c :: t
    | [] => []
  (takeDigits 4 r2).map fun p3 => p1.1 ++ p2.1 ++ p3.1

/-- Python str.title on an already-lowered captured name. -/
def titleChars : List Char → Bool → List Char
  | [], _ => []
  | c :: cs, startWord =>
    (if startWord && c.isAlpha then c.toUpper else c) :: titleChars cs (!c.isAlpha)

/-- After a name trigger: at least one whitespace, a letter word, and
optionally a second letter word. -/
def nameAfterTrigger (twoWords : Bool) (r : List Char) : Option (List Char) :=
  let ws := r.takeWhile Char.isWhitespace
  if ws.isEmpty then none
  else
    let r2 := r.drop ws.length
    let w1 := r2.takeWhile Char.isAlpha
    if w1.isEmpty then none
    else
      let r3 := r2.drop w1.length
      let ws2 := r3.takeWhile Char.isWhitespace
      let w2 := (r3.drop ws2.length).takeWhile Char.isAlpha
      if twoWords && !ws2.isEmpty && !w2.isEmpty then some (w1 ++ ' ' :: w2)
      else some w1

/-- One name pattern: a literal trigger followed by the captured word or
words. -/
def tryNameAt (trigger : List Char) (twoWords : Bool) (l : List Char) : Option (List Char) :=
  (matchHead trigger l).bind (nameAfterTrigger twoWords)

/-- The four name triggers of process_contact_info, in source order; the
first pattern that matches anywhere wins. -/
def findName (lowered : List Char) : Option (List Char) :=
  match scanFirst (tryNameAt ['i', apos, 'm'] true) lowered with
  | some r => some r
  | none =>
  match scanFirst (tryNameAt ['i', 'm'] true) lowered with
  | some r => some r
  | none =>
  match scanFirst (tryNameAt "my name is".data true) lowered with
  | some r => some r
  | none =>
  match scanFirst (tryNameAt ['n', 'a', 'm', 'e', apos, 's'] true) lowered with
  | some r => some r
  | none =>
  match scanFirst (tryNameAt "names".data true) lowered with
  | some r => some r
  | none => scanFirst (tryNameAt "call me".data false) lowered

/-- process_contact_info: detect an email, a phone number, a name and a
photo marker in the message, storing each only if the field is not already
truthy (the photo marker is stored unconditionally, as in the source). -/
def process_contact_info (user_message : String) (m : Memory) : Memory :=
  let message_lower := lowerStr user_message
  let m :=
    match scanFirst tryEmailAt user_message.data with
    | some e =>
      if !truthy m.contact_info.email then update_contact_info m "email" (String.mk e) else m
    | none => m
  let m :=
    match scanFirst tryPhoneAt user_message.data with
    | some p =>
      if !truthy m.contact_info.phone then update_contact_info m "phone" (String.mk p) else m
    | none => m
  let m :=
    if !truthy m.contact_info.name then
      match findName message_lower.data with
      | some w => update_contact_info m "name" (String.mk (titleChars w true))
      | none => m
    else m
  if (strContains message_lower "photo" || strContains message_lower "picture" ||
      strContains message_lower "image") &&
     (strContains message_lower "sent" || strContains message_lower "attached" ||
      strContains message_lower "here") then
    update_contact_info m "photo" "provided"
  else m

/-- get_missing_contact_fields of app_enhanced_rusty.py. -/
def get_missing_contact_fields (m : Memory) : List String :=
  required_fields.filter fun f => !truthy (contact_get m.contact_info f)

/-- The record effect of handle_render_workflow (app_enhanced_rusty.py).
The info_needed branch and the missing-fields branch only append text to
the bot reply, which is not part of the record; only the collecting_info
branch mutates the record, by parsing contact fields and completing the
workflow when none is missing. -/
def handle_render_workflow (m : Memory) (user_message : String) : Memory :=
  let render_stage := get_render_workflow_stage m
  if render_stage = "collecting_info" then
    let m := process_contact_info user_message m
    if (get_missing_contact_fields m).isEmpty then { m with render_status := some "complete" }
    else m
  else m

/-! ### Operation sequences

The record is mutated across turns through add_interaction (which runs
fact extraction, the stage update and the engagement update) and through
record_cta_attempt.  A sequence of such operations models a conversation. -/

inductive TurnOp where
  | interaction (user_message bot_response : String) (t : Int)
  | cta (cta_type response : String) (t : Int)

def apply_op (max_interactions : Nat) (m : Memory) : TurnOp → Memory
  | .interaction u b t => add_interaction max_interactions m u b t
  | .cta k r t => record_cta_attempt m k r t

/-! ### CTA runs

A run interleaves conversation turns with gate queries; whenever the gate
grants an attempt, the attempt is recorded at the query time with the
pending response, exactly as the chat endpoint does
(app_enhanced_rusty.py, steps 4 of the chat route). -/

inductive RunOp where
  | turn (user_message bot_response : String)
  | gate

/-- One run step at time t: a turn updates the record; a gate query
records the attempt when granted and reports the grant time. -/
def run_step (max_interactions : Nat) (m : Memory) (t : Int) (op : RunOp) :
    Memory × Option Int :=
  match op with
  | .turn u b => (add_interaction max_interactions m u b t, none)
  | .gate =>
    match should_attempt_cta m t with
    | (true, some k) => (record_cta_attempt m k "pending" t, some t)
    | _ => (m, none)

/-- The times at which the gate granted an attempt along a run. -/
def run_cta (max_interactions : Nat) : Memory → List (Int × RunOp) → List Int
  | _, [] => []
  | m, (t, op) :: rest =>
    match (run_step max_interactions m t op).2 with
    | some tg => tg :: run_cta max_interactions (run_step max_interactions m t op).1 rest
    | none => run_cta max_interactions (run_step max_interactions m t op).1 rest

/-! ### The CTA gate as the specification states it: an ordered rule
table, first satisfied rule wins, default no attempt. -/

structure CtaRule where
  guard : Memory → Int → Bool
  result : Bool × Option String

/-- Rules 1 to 5 of the gate, worded as in the specification: cooldown,
rate cap, consult for engaged considering-or-ready records, render for
engaged interested records with space concerns, consult after four
interactions with high engagement. -/
def cta_gate_rules : List CtaRule :=
  [⟨fun m now => m.last_cta_attempt.any fun t => decide (now - t < 300), (false, none)⟩,
   ⟨fun m now => decide (2 ≤ m.cta_attempts.countP fun a => decide (now - a.timestamp < 3600)),
    (false, none)⟩,
   ⟨fun m _ => decide (m.buyer_stage ∈ [BuyerStage.considering, BuyerStage.ready] ∧
      3 ≤ m.engagement_level), (true, some "consult")⟩,
   ⟨fun m _ => decide (m.buyer_stage = .interested ∧ 2 ≤ m.engagement_level ∧
      m.key_facts.space_concerns = some true), (true, some "render")⟩,
   ⟨fun m _ => decide (4 ≤ m.interactions.length ∧ 3 ≤ m.engagement_level),
    (true, some "consult")⟩]

def first_satisfied : List CtaRule → Memory → Int → Bool × Option String
  | [], _, _ => (false, none)
  | r :: rs, m, now => if r.guard m now then r.result else first_satisfied rs m now

/-! ### Concrete records used by witnesses and counterexamples. -/

/-- An interested record holding two scalar facts and an empty features
list: three key_facts dictionary entries in total. -/
def c10_record : Memory :=
  { default_memory "u" 0 with
    buyer_stage := .interested
    key_facts :=
      { KeyFacts.empty with
        focus := some "relaxation"
        budget_conscious := some true
        features := some [] } }

/-- A record in the state reached right after a render CTA was accepted:
render requested, status info_needed, no contact fields captured. -/
def render_pending_record : Memory :=
  { default_memory "u" 0 with
    render_requested := true
    render_status := some "info_needed" }

/-- A considering record engaged enough for the consult rule of the CTA
gate. -/
def considering_record : Memory :=
  { default_memory "u" 0 with
    buyer_stage := .considering
    engagement_level := 3 }

/-! ## Lemmas

### Frame lemmas: each fact updater leaves every other fact unchanged. -/

@[simp] lemma update_focus_budget (ml : String) (kf : KeyFacts) :
    (update_focus ml kf).budget_conscious = kf.budget_conscious := by
  unfold update_focus; split_ifs <;> rfl

@[simp] lemma update_focus_pool (ml : String) (kf : KeyFacts) :
    (update_focus ml kf).pool_type = kf.pool_type := by
  unfold update_focus; split_ifs <;> rfl

@[simp] lemma update_focus_size (ml : String) (kf : KeyFacts) :
    (update_focus ml kf).preferred_size = kf.preferred_size := by
  unfold update_focus; split_ifs <;> rfl

@[simp] lemma update_focus_features (ml : String) (kf : KeyFacts) :
    (update_focus ml kf).features = kf.features := by
  unfold update_focus; split_ifs <;> rfl

@[simp] lemma update_focus_timeline (ml : String) (kf : KeyFacts) :
    (update_focus ml kf).timeline_interest = kf.timeline_interest := by
  unfold update_focus; split_ifs <;> rfl

@[simp] lemma update_focus_space (ml : String) (kf : KeyFacts) :
    (update_focus ml kf).space_concerns = kf.space_concerns := by
  unfold update_focus; split_ifs <;> rfl

@[simp] lemma update_budget_focus (um ml : String) (kf : KeyFacts) :
    (update_budget um ml kf).focus = kf.focus := by
  unfold update_budget; split_ifs <;> rfl

@[simp] lemma update_budget_pool (um ml : String) (kf : KeyFacts) :
    (update_budget um ml kf).pool_type = kf.pool_type := by
  unfold update_budget; split_ifs <;> rfl

@[simp] lemma update_budget_size (um ml : String) (kf : KeyFacts) :
    (update_budget um ml kf).preferred_size = kf.preferred_size := by
  unfold update_budget; split_ifs <;> rfl

@[simp] lemma update_budget_features (um ml : String) (kf : KeyFacts) :
    (update_budget um ml kf).features = kf.features := by
  unfold update_budget; split_ifs <;> rfl

@[simp] lemma update_budget_timeline (um ml : String) (kf : KeyFacts) :
    (update_budget um ml kf).timeline_interest = kf.timeline_interest := by
  unfold update_budget; split_ifs <;> rfl

@[simp] lemma update_budget_space (um ml : String) (kf : KeyFacts) :
    (update_budget um ml kf).space_concerns = kf.space_concerns := by
  unfold update_budget; split_ifs <;> rfl

@[simp] lemma update_pool_focus (ml : String) (kf : KeyFacts) :
    (update_pool_type ml kf).focus = kf.focus := by
  unfold update_pool_type; split_ifs <;> rfl

@[simp] lemma update_pool_budget (ml : String) (kf : KeyFacts) :
    (update_pool_type ml kf).budget_conscious = kf.budget_conscious := by
  unfold update_pool_type; split_ifs <;> rfl

@[simp] lemma update_pool_size (ml : String) (kf : KeyFacts) :
    (update_pool_type ml kf).preferred_size = kf.preferred_size := by
  unfold update_pool_type; split_ifs <;> rfl

@[simp] lemma update_pool_features (ml : String) (kf : KeyFacts) :
    (update_pool_type ml kf).features = kf.features := by
  unfold update_pool_type; split_ifs <;> rfl

@[simp] lemma update_pool_timeline (ml : String) (kf : KeyFacts) :
    (update_pool_type ml kf).timeline_interest = kf.timeline_interest := by
  unfold update_pool_type; split_ifs <;> rfl

@[simp] lemma update_pool_space (ml : String) (kf : KeyFacts) :
    (update_pool_type ml kf).space_concerns = kf.space_concerns := by
  unfold update_pool_type; split_ifs <;> rfl

@[simp] lemma update_size_focus (ml : String) (kf : KeyFacts) :
    (update_preferred_size ml kf).focus = kf.focus := by
  unfold update_preferred_size; split_ifs <;> rfl

@[simp] lemma update_size_budget (ml : String) (kf : KeyFacts) :
    (update_preferred_size ml kf).budget_conscious = kf.budget_conscious := by
  unfold update_preferred_size; split_ifs <;> rfl

@[simp] lemma update_size_pool (ml : String) (kf : KeyFacts) :
    (update_preferred_size ml kf).pool_type = kf.pool_type := by
  unfold update_preferred_size; split_ifs <;> rfl

@[simp] lemma update_size_features (ml : String) (kf : KeyFacts) :
    (update_preferred_size ml kf).features = kf.features := by
  unfold update_preferred_size; split_ifs <;> rfl

@[simp] lemma update_size_timeline (ml : String) (kf : KeyFacts) :
    (update_preferred_size ml kf).timeline_interest = kf.timeline_interest := by
  unfold update_preferred_size; split_ifs <;> rfl

@[simp] lemma update_size_space (ml : String) (kf : KeyFacts) :
    (update_preferred_size ml kf).space_concerns = kf.space_concerns := by
  unfold update_preferred_size; split_ifs <;> rfl

@[simp] lemma update_features_focus (ml : String) (kf : KeyFacts) :
    (update_features ml kf).focus = kf.focus := rfl

@[simp] lemma update_features_budget (ml : String) (kf : KeyFacts) :
    (update_features ml kf).budget_conscious = kf.budget_conscious := rfl

@[simp] lemma update_features_pool (ml : String) (kf : KeyFacts) :
    (update_features ml kf).pool_type = kf.pool_type := rfl

@[simp] lemma update_features_size (ml : String) (kf : KeyFacts) :
    (update_features ml kf).preferred_size = kf.preferred_size := rfl

@[simp] lemma update_features_timeline (ml : String) (kf : KeyFacts) :
    (update_features ml kf).timeline_interest = kf.timeline_interest := rfl

@[simp] lemma update_features_space (ml : String) (kf : KeyFacts) :
    (update_features ml kf).space_concerns = kf.space_concerns := rfl

@[simp] lemma update_timeline_focus (ml : String) (kf : KeyFacts) :
    (update_timeline ml kf).focus = kf.focus := by
  unfold update_timeline; split_ifs <;> rfl

@[simp] lemma update_timeline_budget (ml : String) (kf : KeyFacts) :
    (update_timeline ml kf).budget_conscious = kf.budget_conscious := by
  unfold update_timeline; split_ifs <;> rfl

@[simp] lemma update_timeline_pool (ml : String) (kf : KeyFacts) :
    (update_timeline ml kf).pool_type = kf.pool_type := by
  unfold update_timeline; split_ifs <;> rfl

@[simp] lemma update_timeline_size (ml : String) (kf : KeyFacts) :
    (update_timeline ml kf).preferred_size = kf.preferred_size := by
  unfold update_timeline; split_ifs <;> rfl

@[simp] lemma update_timeline_features (ml : String) (kf : KeyFacts) :
    (update_timeline ml kf).features = kf.features := by
  unfold update_timeline; split_ifs <;> rfl

@[simp] lemma update_timeline_space (ml : String) (kf : KeyFacts) :
    (update_timeline ml kf).space_concerns = kf.space_concerns := by
  unfold update_timeline; split_ifs <;> rfl

@[simp] lemma update_space_focus (ml : String) (kf : KeyFacts) :
    (update_space ml kf).focus = kf.focus := by
  unfold update_space; split_ifs <;> rfl

@[simp] lemma update_space_budget (ml : String) (kf : KeyFacts) :
    (update_space ml kf).budget_conscious = kf.budget_conscious := by
  unfold update_space; split_ifs <;> rfl

@[simp] lemma update_space_pool (ml : String) (kf : KeyFacts) :
    (update_space ml kf).pool_type = kf.pool_type := by
  unfold update_space; split_ifs <;> rfl

@[simp] lemma update_space_size (ml : String) (kf : KeyFacts) :
    (update_space ml kf).preferred_size = kf.preferred_size := by
  unfold update_space; split_ifs <;> rfl

@[simp] lemma update_space_features (ml : String) (kf : KeyFacts) :
    (update_space ml kf).features = kf.features := by
  unfold update_space; split_ifs <;> rfl

@[simp] lemma update_space_timeline (ml : String) (kf : KeyFacts) :
    (update_space ml kf).timeline_interest = kf.timeline_interest := by
  unfold update_space; split_ifs <;> rfl

/-! ### The feature fold appends only new, pairwise distinct names. -/

lemma features_foldl_append (ml : String) (fm : List (String × List String)) :
    ∀ fs : List String,
      ∃ adds : List String,
        fm.foldl
            (fun fs p =>
              if p.2.any (fun k => strContains ml k) && !(fs.contains p.1) then fs ++ [p.1]
              else fs)
            fs = fs ++ adds ∧
          adds.Nodup ∧ ∀ a ∈ adds, a ∉ fs := by
  induction fm with
  | nil => exact fun fs => ⟨[], by simp⟩
  | cons p fm ih =>
    intro fs
    rw [List.foldl_cons]
    by_cases hp : (p.2.any (fun k => strContains ml k) && !(fs.contains p.1)) = true
    · rw [if_pos hp]
      obtain ⟨adds, heq, hnd, hnotin⟩ := ih (fs ++ [p.1])
      refine ⟨p.1 :: adds, ?_, ?_, ?_⟩
      · rw [heq, List.append_assoc]; rfl
      · refine List.nodup_cons.mpr ⟨fun hmem => ?_, hnd⟩
        exact (hnotin _ hmem) (by simp)
      · intro a ha
        rcases List.mem_cons.mp ha with h | h
        · subst h
          have hc := (Bool.and_eq_true _ _ |>.mp hp).2
          rw [Bool.not_eq_true'] at hc
          simpa using hc
        · intro hfs
          exact (hnotin a h) (by simp [hfs])
    · rw [if_neg hp]
      exact ih fs

/-- The features list of the extracted facts is the old features list
(empty when absent) extended with new, pairwise distinct feature names. -/
lemma extract_facts_features (kf : KeyFacts) (um : String) :
    ∃ adds : List String,
      (extract_facts kf um).features = some (kf.features.getD [] ++ adds) ∧
        adds.Nodup ∧ ∀ a ∈ adds, a ∉ kf.features.getD [] := by
  obtain ⟨adds, heq, hnd, hni⟩ :=
    features_foldl_append (lowerStr um) feature_map
      ((update_preferred_size (lowerStr um)
          (update_pool_type (lowerStr um)
            (update_budget um (lowerStr um)
              (update_focus (lowerStr um) kf)))).features.getD [])
  have hinner :
      (update_preferred_size (lowerStr um)
          (update_pool_type (lowerStr um)
            (update_budget um (lowerStr um)
              (update_focus (lowerStr um) kf)))).features = kf.features := by
    simp
  refine ⟨adds, ?_, hnd, ?_⟩
  · simp only [extract_facts, update_space_features, update_timeline_features,
      update_features]
    rw [heq, hinner]
  · rw [hinner] at hni
    exact hni

/-! ### Each scalar updater either keeps its fact or writes one of the
values enumerated in its source block. -/

lemma update_focus_cases (ml : String) (kf : KeyFacts) :
    (update_focus ml kf).focus = kf.focus ∨ (update_focus ml kf).focus = some "relaxation" ∨
      (update_focus ml kf).focus = some "entertaining" ∨
      (update_focus ml kf).focus = some "family" ∨ (update_focus ml kf).focus = some "both" := by
  unfold update_focus; split_ifs <;> simp

lemma update_budget_cases (um ml : String) (kf : KeyFacts) :
    (update_budget um ml kf).budget_conscious = kf.budget_conscious ∨
      (update_budget um ml kf).budget_conscious = some true := by
  unfold update_budget; split_ifs <;> simp

lemma update_pool_cases (ml : String) (kf : KeyFacts) :
    (update_pool_type ml kf).pool_type = kf.pool_type ∨
      (update_pool_type ml kf).pool_type = some "cocktail" ∨
      (update_pool_type ml kf).pool_type = some "semi-inground" ∨
      (update_pool_type ml kf).pool_type = some "custom" := by
  unfold update_pool_type; split_ifs <;> simp

lemma update_size_cases (ml : String) (kf : KeyFacts) :
    (update_preferred_size ml kf).preferred_size = kf.preferred_size ∨
      (update_preferred_size ml kf).preferred_size = some "12x24" ∨
      (update_preferred_size ml kf).preferred_size = some "14x28" := by
  unfold update_preferred_size; split_ifs <;> simp

lemma update_timeline_cases (ml : String) (kf : KeyFacts) :
    (update_timeline ml kf).timeline_interest = kf.timeline_interest ∨
      (update_timeline ml kf).timeline_interest = some true := by
  unfold update_timeline; split_ifs <;> simp

lemma update_space_cases (ml : String) (kf : KeyFacts) :
    (update_space ml kf).space_concerns = kf.space_concerns ∨
      (update_space ml kf).space_concerns = some true := by
  unfold update_space; split_ifs <;> simp

/-! ### Projections of the extracted facts down to the responsible
updater. -/

lemma extract_facts_focus (kf : KeyFacts) (um : String) :
    (extract_facts kf um).focus = (update_focus (lowerStr um) kf).focus := by
  simp [extract_facts]

lemma extract_facts_budget (kf : KeyFacts) (um : String) :
    (extract_facts kf um).budget_conscious =
      (update_budget um (lowerStr um) (update_focus (lowerStr um) kf)).budget_conscious := by
  simp [extract_facts]

lemma extract_facts_pool (kf : KeyFacts) (um : String) :
    (extract_facts kf um).pool_type =
      (update_pool_type (lowerStr um)
        (update_budget um (lowerStr um) (update_focus (lowerStr um) kf))).pool_type := by
  simp [extract_facts]

lemma extract_facts_size (kf : KeyFacts) (um : String) :
    (extract_facts kf um).preferred_size =
      (update_preferred_size (lowerStr um)
        (update_pool_type (lowerStr um)
          (update_budget um (lowerStr um)
            (update_focus (lowerStr um) kf)))).preferred_size := by
  simp [extract_facts]

lemma extract_facts_timeline (kf : KeyFacts) (um : String) :
    (extract_facts kf um).timeline_interest =
      (update_timeline (lowerStr um)
        (update_features (lowerStr um)
          (update_preferred_size (lowerStr um)
            (update_pool_type (lowerStr um)
              (update_budget um (lowerStr um)
                (update_focus (lowerStr um) kf)))))).timeline_interest := by
  simp [extract_facts]

lemma extract_facts_space (kf : KeyFacts) (um : String) :
    (extract_facts kf um).space_concerns =
      (update_space (lowerStr um)
        (update_timeline (lowerStr um)
          (update_features (lowerStr um)
            (update_preferred_size (lowerStr um)
              (update_pool_type (lowerStr um)
                (update_budget um (lowerStr um)
                  (update_focus (lowerStr um) kf))))))).space_concerns := by
  simp only [extract_facts]

/-! ## Claims -/

/-- C1 (counterexample): the fact extractor does overwrite an already-set
scalar fact.  After the utterance relax sets focus to relaxation, the
utterance party changes it to entertaining, so a set scalar fact is not
stable under later extractor calls. -/
theorem extractor_overwrites_set_focus :
    (extract_key_facts (default_memory "u" 0) "relax").key_facts.focus =
        some "relaxation" ∧
      (extract_key_facts (extract_key_facts (default_memory "u" 0) "relax")
            "party").key_facts.focus = some "entertaining" ∧
      (extract_key_facts (extract_key_facts (default_memory "u" 0) "relax")
            "party").key_facts.focus ≠ some "relaxation" := by
  decide

/-- C1 (amended): the fact extractor never removes a key fact, and a
boolean fact (budgetConscious, timelineInterest, spaceConcerns), once set,
keeps its value; but a value-carrying scalar fact (focus, poolType,
preferredSize) may be overwritten by a later utterance matching one of its
rules: every scalar fact is, after each call, either unchanged or equal to
one of the values of its rule block, and features only accumulates new
names. -/
theorem extractor_append_only_amended (m : Memory) (um : String) :
    ((extract_key_facts m um).key_facts.focus = m.key_facts.focus ∨
      (extract_key_facts m um).key_facts.focus = some "relaxation" ∨
      (extract_key_facts m um).key_facts.focus = some "entertaining" ∨
      (extract_key_facts m um).key_facts.focus = some "family" ∨
      (extract_key_facts m um).key_facts.focus = some "both") ∧
    ((extract_key_facts m um).key_facts.budget_conscious = m.key_facts.budget_conscious ∨
      (extract_key_facts m um).key_facts.budget_conscious = some true) ∧
    ((extract_key_facts m um).key_facts.pool_type = m.key_facts.pool_type ∨
      (extract_key_facts m um).key_facts.pool_type = some "cocktail" ∨
      (extract_key_facts m um).key_facts.pool_type = some "semi-inground" ∨
      (extract_key_facts m um).key_facts.pool_type = some "custom") ∧
    ((extract_key_facts m um).key_facts.preferred_size = m.key_facts.preferred_size ∨
      (extract_key_facts m um).key_facts.preferred_size = some "12x24" ∨
      (extract_key_facts m um).key_facts.preferred_size = some "14x28") ∧
    ((extract_key_facts m um).key_facts.timeline_interest = m.key_facts.timeline_interest ∨
      (extract_key_facts m um).key_facts.timeline_interest = some true) ∧
    ((extract_key_facts m um).key_facts.space_concerns = m.key_facts.space_concerns ∨
      (extract_key_facts m um).key_facts.space_concerns = some true) ∧
    (∃ adds : List String,
      (extract_key_facts m um).key_facts.features =
          some (m.key_facts.features.getD [] ++ adds) ∧
        ∀ a ∈ adds, a ∉ m.key_facts.features.getD []) := by
  refine ⟨?_, ?_, ?_, ?_, ?_, ?_, ?_⟩
  · rw [extract_key_facts, extract_facts_focus]
    exact update_focus_cases _ _
  · rw [extract_key_facts, extract_facts_budget]
    rcases update_budget_cases um (lowerStr um) (update_focus (lowerStr um) m.key_facts)
      with h | h
    · rw [h, update_focus_budget]; exact Or.inl rfl
    · exact Or.inr h
  · rw [extract_key_facts, extract_facts_pool]
    rcases update_pool_cases (lowerStr um)
        (update_budget um (lowerStr um) (update_focus (lowerStr um) m.key_facts))
      with h | h
    · rw [h, update_budget_pool, update_focus_pool]; exact Or.inl rfl
    · exact Or.inr h
  · rw [extract_key_facts, extract_facts_size]
    rcases update_size_cases (lowerStr um)
        (update_pool_type (lowerStr um)
          (update_budget um (lowerStr um) (update_focus (lowerStr um) m.key_facts)))
      with h | h
    · rw [h, update_pool_size, update_budget_size, update_focus_size]; exact Or.inl rfl
    · exact Or.inr h
  · rw [extract_key_facts, extract_facts_timeline]
    rcases update_timeline_cases (lowerStr um)
        (update_features (lowerStr um)
          (update_preferred_size (lowerStr um)
            (update_pool_type (lowerStr um)
              (update_budget um (lowerStr um) (update_focus (lowerStr um) m.key_facts)))))
      with h | h
    · rw [h]; simp
    · exact Or.inr h
  · rw [extract_key_facts, extract_facts_space]
    rcases update_space_cases (lowerStr um)
        (update_timeline (lowerStr um)
          (update_features (lowerStr um)
            (update_preferred_size (lowerStr um)
              (update_pool_type (lowerStr um)
                (update_budget um (lowerStr um) (update_focus (lowerStr um) m.key_facts))))))
      with h | h
    · rw [h]; simp
    · exact Or.inr h
  · obtain ⟨adds, heq, _, hni⟩ := extract_facts_features m.key_facts um
    exact ⟨adds, heq, hni⟩

/-- C9 (counterexample): feeding tanning ledge, then bench, then tanning
ledge again does not produce the features list claimed: the code stores
the canonical feature names, and the first message also matches the
lighting rule because led occurs inside ledge. -/
theorem features_sequence_counterexample :
    (extract_key_facts (extract_key_facts (extract_key_facts (default_memory "u" 0)
          "tanning ledge") "bench") "tanning ledge").key_facts.features ≠
      some ["tanning ledge", "bench"] := by
  decide

/-- C9 (amended): the features list accumulates without duplicates and
preserves first-seen order, but it stores canonical feature names: the
scenario yields the list tanning ledge, lighting, wraparound bench (the
keyword bench stores the name wraparound bench, and ledge also triggers
the lighting rule because it contains led).  In general each call appends
only new names, pairwise distinct, after the existing list. -/
theorem features_accumulate_amended :
    ((extract_key_facts (extract_key_facts (extract_key_facts (default_memory "u" 0)
          "tanning ledge") "bench") "tanning ledge").key_facts.features =
        some ["tanning ledge", "lighting", "wraparound bench"]) ∧
    (∀ (m : Memory) (um : String), ∃ adds : List String,
        (extract_key_facts m um).key_facts.features =
            some (m.key_facts.features.getD [] ++ adds) ∧
          adds.Nodup ∧ ∀ a ∈ adds, a ∉ m.key_facts.features.getD []) := by
  refine ⟨by decide, ?_⟩
  intro m um
  exact extract_facts_features m.key_facts um

/-- C10: every extractor call creates the features entry of key_facts,
possibly as an empty list, so the entry count includes it; an interested
record with two scalar facts and an empty features list already holds
three entries and is promoted to considering by the three-entry threshold
on a contentless turn. -/
theorem features_key_counts_toward_threshold :
    (∀ (m : Memory) (um : String),
        ((extract_key_facts m um).key_facts.features).isSome = true) ∧
    key_facts_count { KeyFacts.empty with features := some [] } = 1 ∧
    c10_record.key_facts.features = some [] ∧
    key_facts_count c10_record.key_facts = 3 ∧
    (update_buyer_stage c10_record "hi").buyer_stage = .considering := by
  refine ⟨?_, by decide, by decide, by decide, by decide⟩
  intro m um
  obtain ⟨adds, heq, _, _⟩ := extract_facts_features m.key_facts um
  show ((extract_facts m.key_facts um).features).isSome = true
  rw [heq]
  rfl

/-- C3 (counterexample): in the state reached right after a render CTA is
accepted, a following user turn with no contact content leaves the render
workflow stage at info_needed: the claimed unconditional transition to
collecting_info does not happen. -/
theorem render_stage_transition_counterexample :
    get_render_workflow_stage (handle_render_workflow render_pending_record "hello") =
        "info_needed" ∧
      get_render_workflow_stage (handle_render_workflow render_pending_record "hello") ≠
        "collecting_info" := by
  decide

/-- C3 (amended): the render stage is a pure projection of the contact
fields: while the projection is info_needed, a user turn leaves the record
unchanged regardless of its content, and the stage remains info_needed;
the transition to collecting_info is content-based — it requires at least
one contact field to have been captured, which the info_needed branch
never does. -/
theorem render_info_needed_stays (m : Memory) (um : String)
    (h : get_render_workflow_stage m = "info_needed") :
    handle_render_workflow m um = m ∧
      get_render_workflow_stage (handle_render_workflow m um) = "info_needed" := by
  have hne : (get_render_workflow_stage m = "collecting_info") → False := by
    rw [h]; decide
  have h1 : handle_render_workflow m um = m := by
    simp only [handle_render_workflow]
    rw [if_neg hne]
  exact ⟨h1, by rw [h1, h]⟩

/-- C3 witness: the amended statement at the concrete post-acceptance
record and a concrete turn. -/
theorem render_info_needed_stays_witness :
    get_render_workflow_stage render_pending_record = "info_needed" ∧
      (handle_render_workflow render_pending_record "hi" = render_pending_record ∧
        get_render_workflow_stage (handle_render_workflow render_pending_record "hi") =
          "info_needed") :=
  ⟨by decide, render_info_needed_stays render_pending_record "hi" (by decide)⟩

/-- C7 (counterexample): a transient store failure on load is not
surfaced: the caller receives exactly the same defaulted record as for a
successfully loaded brand-new id, so it cannot distinguish the two and no
retryable failure is reported. -/
theorem load_failure_counterexample :
    load_memory_result 90 "u" 0 (Except.error StoreError.connection_failure) =
        load_memory_result 90 "u" 0 (Except.ok none) ∧
      load_memory_result 90 "u" 0 (Except.error StoreError.connection_failure) =
        default_memory "u" 0 :=
  ⟨rfl, rfl⟩

/-- C7 (amended): a transient store failure on load is caught and
swallowed: the caller receives the defaulted fresh record, identical to
the result of loading an absent id, for every failure kind; no retryable
failure is surfaced to the caller. -/
theorem load_failure_returns_defaults (ed : Int) (uid : String) (now : Int)
    (e : StoreError) :
    load_memory_result ed uid now (Except.error e) = default_memory uid now ∧
      load_memory_result ed uid now (Except.error e) =
        load_memory_result ed uid now (Except.ok none) :=
  ⟨rfl, rfl⟩

/-- C8: a record whose last_updated is older than the expiry window loads
as the brand-new defaults (browsing stage, engagement 1, empty
interactions, key facts and contact info, render not requested), and the
sweep keeps exactly the rows whose last_updated does not precede now minus
the window — the expired record itself satisfies the deletion condition. -/
theorem expiry_load_and_sweep (ed : Int) (uid : String) (now : Int) (r : Memory)
    (store : List Memory) (hexp : now - r.last_updated > ed * 86400) :
    load_memory ed uid now (some r) = default_memory uid now ∧
    (default_memory uid now).buyer_stage = .browsing ∧
    (default_memory uid now).engagement_level = 1 ∧
    (default_memory uid now).interactions = [] ∧
    (default_memory uid now).key_facts = KeyFacts.empty ∧
    (default_memory uid now).contact_info = ContactInfo.empty ∧
    (default_memory uid now).render_requested = false ∧
    (∀ s : Memory, s ∈ (cleanup_expired_memories ed now store).1 ↔
        s ∈ store ∧ ¬(s.last_updated < now - ed * 86400)) ∧
    r.last_updated < now - ed * 86400 := by
  refine ⟨?_, rfl, rfl, rfl, rfl, rfl, rfl, ?_, by omega⟩
  · simp only [load_memory]
    rw [if_pos hexp]
  · intro s
    simp [cleanup_expired_memories, List.mem_filter]

/-- C8 witness: a record last updated at time zero, loaded and swept well
past the ninety-day window. -/
theorem expiry_load_and_sweep_witness :
    (10000000 - (default_memory "u" 0).last_updated > 90 * 86400) ∧
      (load_memory 90 "v" 10000000 (some (default_memory "u" 0)) =
          default_memory "v" 10000000 ∧
        (default_memory "v" 10000000).buyer_stage = .browsing ∧
        (default_memory "v" 10000000).engagement_level = 1 ∧
        (default_memory "v" 10000000).interactions = [] ∧
        (default_memory "v" 10000000).key_facts = KeyFacts.empty ∧
        (default_memory "v" 10000000).contact_info = ContactInfo.empty ∧
        (default_memory "v" 10000000).render_requested = false ∧
        (∀ s : Memory,
            s ∈ (cleanup_expired_memories 90 10000000 [default_memory "u" 0]).1 ↔
              s ∈ [default_memory "u" 0] ∧
                ¬(s.last_updated < 10000000 - 90 * 86400)) ∧
        (default_memory "u" 0).last_updated < 10000000 - 90 * 86400) :=
  ⟨by decide, expiry_load_and_sweep 90 "v" 10000000 (default_memory "u" 0)
    [default_memory "u" 0] (by decide)⟩

/-- C5: the engagement score is a sum of three signals each capped at one,
hence lies in the interval from zero to three; the new level is the old
level plus the truncated score, clamped to at most five and at least the
old level, so the level never decreases and stays within one to five. -/
theorem engagement_monotone_bounded (m : Memory) (um : String)
    (h1 : 1 ≤ m.engagement_level) (h5 : m.engagement_level ≤ 5) :
    (0 ≤ engagement_score um ∧ engagement_score um ≤ 3) ∧
    (update_engagement_level m um).engagement_level =
      min 5 (max m.engagement_level
        (m.engagement_level + (Int.floor (engagement_score um)).toNat)) ∧
    m.engagement_level ≤ (update_engagement_level m um).engagement_level ∧
    1 ≤ (update_engagement_level m um).engagement_level ∧
    (update_engagement_level m um).engagement_level ≤ 5 := by
  have hs0 : 0 ≤ engagement_score um := by
    unfold engagement_score
    refine add_nonneg (add_nonneg ?_ ?_) ?_ <;> refine le_min (by positivity) (by norm_num)
  have hs3 : engagement_score um ≤ 3 := by
    unfold engagement_score
    have a1 := min_le_right (((countChar um '?') : ℚ) * (1 / 2)) 1
    have a2 := min_le_right
      ((((["size", "cost", "feature", "timeline", "process"].filter
        fun t => strContains (lowerStr um) t).length : ℚ)) * (3 / 10)) 1
    have a3 := min_le_right (((wordCount um) : ℚ) / 20) 1
    linarith
  have hfl : ((Int.floor ((m.engagement_level : ℚ) + engagement_score um)).toNat) =
      m.engagement_level + (Int.floor (engagement_score um)).toNat := by
    have hcast : ((m.engagement_level : ℚ) + engagement_score um) =
        engagement_score um + ((m.engagement_level : Int) : ℚ) := by
      push_cast; ring
    rw [hcast, Int.floor_add_int]
    have h0 : 0 ≤ Int.floor (engagement_score um) := Int.floor_nonneg.mpr hs0
    omega
  have heq : (update_engagement_level m um).engagement_level =
      min 5 (max m.engagement_level
        (m.engagement_level + (Int.floor (engagement_score um)).toNat)) := by
    unfold update_engagement_level
    dsimp only
    rw [hfl]
  refine ⟨⟨hs0, hs3⟩, heq, ?_, ?_, ?_⟩
  · rw [heq]
    exact le_min h5 (le_max_left _ _)
  · rw [heq]
    exact le_min (by norm_num) (le_trans h1 (le_max_left _ _))
  · rw [heq]
    exact min_le_left _ _

/-- C5 witness: the default record (engagement one) and a concrete
message. -/
theorem engagement_monotone_bounded_witness :
    (1 ≤ (default_memory "u" 0).engagement_level ∧
      (default_memory "u" 0).engagement_level ≤ 5) ∧
      ((0 ≤ engagement_score "what does it cost?" ∧
          engagement_score "what does it cost?" ≤ 3) ∧
        (update_engagement_level (default_memory "u" 0)
              "what does it cost?").engagement_level =
          min 5 (max (default_memory "u" 0).engagement_level
            ((default_memory "u" 0).engagement_level +
              (Int.floor (engagement_score "what does it cost?")).toNat)) ∧
        (default_memory "u" 0).engagement_level ≤
          (update_engagement_level (default_memory "u" 0)
            "what does it cost?").engagement_level ∧
        1 ≤ (update_engagement_level (default_memory "u" 0)
          "what does it cost?").engagement_level ∧
        (update_engagement_level (default_memory "u" 0)
          "what does it cost?").engagement_level ≤ 5) :=
  ⟨⟨by decide, by decide⟩,
    engagement_monotone_bounded (default_memory "u" 0) "what does it cost?"
      (by decide) (by decide)⟩

/-! ### Stage monotonicity lemmas. -/

@[simp] lemma update_engagement_stage (m : Memory) (um : String) :
    (update_engagement_level m um).buyer_stage = m.buyer_stage := rfl

@[simp] lemma extract_key_facts_stage (m : Memory) (um : String) :
    (extract_key_facts m um).buyer_stage = m.buyer_stage := rfl

lemma update_buyer_stage_mono (m : Memory) (um : String) :
    stage_order m.buyer_stage ≤ stage_order (update_buyer_stage m um).buyer_stage := by
  unfold update_buyer_stage
  cases hm : m.buyer_stage <;> dsimp only <;> (try split_ifs) <;> simp [stage_order, hm]

lemma record_cta_attempt_stage_mono (m : Memory) (k r : String) (t : Int) :
    stage_order m.buyer_stage ≤
      stage_order (record_cta_attempt m k r t).buyer_stage := by
  unfold record_cta_attempt
  dsimp only
  split_ifs <;> (try cases m.buyer_stage) <;> simp [stage_order]

lemma add_interaction_stage_mono (maxI : Nat) (m : Memory) (u b : String) (t : Int) :
    stage_order m.buyer_stage ≤
      stage_order (add_interaction maxI m u b t).buyer_stage := by
  have key : ∀ m' : Memory, m'.buyer_stage = m.buyer_stage →
      stage_order m.buyer_stage ≤ stage_order (update_buyer_stage m' u).buyer_stage := by
    intro m' h
    rw [← h]
    exact update_buyer_stage_mono m' u
  simp only [add_interaction, update_engagement_stage]
  exact key _ rfl

lemma apply_op_stage_mono (maxI : Nat) (m : Memory) (op : TurnOp) :
    stage_order m.buyer_stage ≤ stage_order ((apply_op maxI m op).buyer_stage) := by
  cases op with
  | interaction u b t => exact add_interaction_stage_mono maxI m u b t
  | cta k r t => exact record_cta_attempt_stage_mono m k r t

/-- C2: the buyer stage never regresses: along any sequence of
interactions and CTA recordings, its position in the order browsing,
interested, considering, ready is non-decreasing. -/
theorem buyer_stage_monotone (maxI : Nat) (ops : List TurnOp) (m : Memory) :
    stage_order m.buyer_stage ≤
      stage_order ((ops.foldl (apply_op maxI) m).buyer_stage) := by
  induction ops generalizing m with
  | nil => exact le_refl _
  | cons op ops ih =>
    exact le_trans (apply_op_stage_mono maxI m op) (ih (apply_op maxI m op))

/-- C4: the CTA gate is exactly the ordered five-rule table of the
specification with first satisfied rule winning: cooldown of five minutes
since the last attempt, cap of two attempts in the rolling hour, consult
for considering-or-ready records with engagement at least three, render
for interested records with engagement at least two and space concerns,
consult after at least four interactions with engagement at least three,
and no attempt otherwise. -/
theorem cta_gate_first_match (m : Memory) (now : Int) :
    should_attempt_cta m now = first_satisfied cta_gate_rules m now := by
  cases hl : m.last_cta_attempt <;>
    simp only [should_attempt_cta, first_satisfied, cta_gate_rules, hl,
      Option.any_some, Option.any_none, List.countP_eq_length_filter,
      List.mem_cons, List.mem_singleton, List.not_mem_nil, or_false,
      decide_eq_true_eq, Bool.false_eq_true, if_false]

/-! ### CTA gate and run lemmas for the rate-limit claim. -/

/-- A granting gate call implies the cooldown passed: the recorded last
attempt is at least five minutes old. -/
lemma gate_cooldown {m : Memory} {now : Int} {k : Option String}
    (h : should_attempt_cta m now = (true, k)) {t0 : Int}
    (hl : m.last_cta_attempt = some t0) : t0 + 300 ≤ now := by
  simp only [should_attempt_cta, hl] at h
  split_ifs at h with h1 h2 <;> simp_all <;> omega

/-- A granting gate call implies the rate cap passed: at most one recorded
attempt lies within the last hour. -/
lemma gate_rate {m : Memory} {now : Int} {k : Option String}
    (h : should_attempt_cta m now = (true, k)) :
    (m.cta_attempts.filter fun a => decide (now - a.timestamp < 3600)).length ≤ 1 := by
  simp only [should_attempt_cta] at h
  split_ifs at h with h1 h2 <;> simp_all <;> omega

@[simp] lemma update_buyer_stage_cta (m : Memory) (um : String) :
    (update_buyer_stage m um).cta_attempts = m.cta_attempts := by
  unfold update_buyer_stage
  cases m.buyer_stage <;> dsimp only <;> (try split_ifs) <;> rfl

@[simp] lemma update_buyer_stage_last (m : Memory) (um : String) :
    (update_buyer_stage m um).last_cta_attempt = m.last_cta_attempt := by
  unfold update_buyer_stage
  cases m.buyer_stage <;> dsimp only <;> (try split_ifs) <;> rfl

@[simp] lemma add_interaction_cta (maxI : Nat) (m : Memory) (u b : String) (t : Int) :
    (add_interaction maxI m u b t).cta_attempts = m.cta_attempts := by
  simp [add_interaction, update_engagement_level, extract_key_facts]

@[simp] lemma add_interaction_last (maxI : Nat) (m : Memory) (u b : String) (t : Int) :
    (add_interaction maxI m u b t).last_cta_attempt = m.last_cta_attempt := by
  simp [add_interaction, update_engagement_level, extract_key_facts]

lemma record_cta_attempt_cta (m : Memory) (k r : String) (t : Int) :
    (record_cta_attempt m k r t).cta_attempts =
      m.cta_attempts ++ [⟨t, k, lowerStr r⟩] := by
  unfold record_cta_attempt
  dsimp only
  split_ifs <;> rfl

lemma record_cta_attempt_last (m : Memory) (k r : String) (t : Int) :
    (record_cta_attempt m k r t).last_cta_attempt = some t := by
  unfold record_cta_attempt
  dsimp only
  split_ifs <;> rfl

/-- Tail times of a sorted step list are bounded below by the head time. -/
lemma chain_le_head {t : Int} {l : List Int}
    (h : List.Chain' (· ≤ ·) (t :: l)) : ∀ s ∈ l, t ≤ s := by
  have hp : List.Pairwise (· ≤ ·) (t :: l) :=
    (List.chain'_iff_pairwise.mp h)
  exact fun s hs => (List.pairwise_cons.mp hp).1 s hs

/-- After the last recorded attempt at t0, every grant of the run comes at
least five minutes later. -/
lemma run_cta_after_last (maxI : Nat) :
    ∀ (steps : List (Int × RunOp)) (m : Memory),
      List.Chain' (· ≤ ·) (steps.map Prod.fst) →
      ∀ t0, m.last_cta_attempt = some t0 →
        ∀ x ∈ run_cta maxI m steps, t0 + 300 ≤ x := by
  intro steps
  induction steps with
  | nil => intro m _ t0 _ x hx; simp [run_cta] at hx
  | cons s rest ih =>
    obtain ⟨t, op⟩ := s
    intro m hch t0 hl x hx
    have hch' : List.Chain' (· ≤ ·) (rest.map Prod.fst) := by
      rw [List.map_cons] at hch
      exact hch.tail
    cases op with
    | turn u b =>
      simp only [run_cta, run_step] at hx
      exact ih (add_interaction maxI m u b t) hch' t0 (by simp [hl]) x hx
    | gate =>
      rcases hg : should_attempt_cta m t with ⟨b, k⟩
      cases b with
      | false =>
        simp only [run_cta, run_step, hg] at hx
        exact ih m hch' t0 hl x hx
      | true =>
        cases k with
        | none =>
          simp only [run_cta, run_step, hg] at hx
          exact ih m hch' t0 hl x hx
        | some kind =>
          simp only [run_cta, run_step, hg] at hx
          have hcool := gate_cooldown hg hl
          rcases List.mem_cons.mp hx with hx | hx
          · omega
          · have := ih (record_cta_attempt m kind "pending" t) hch' t
              (record_cta_attempt_last m kind "pending" t) x hx
            omega

/-- Any two grants of a run are at least five minutes apart. -/
lemma run_cta_pair (maxI : Nat) :
    ∀ (steps : List (Int × RunOp)) (m : Memory),
      List.Chain' (· ≤ ·) (steps.map Prod.fst) →
      ∀ x y, List.Sublist [x, y] (run_cta maxI m steps) → x + 300 ≤ y := by
  intro steps
  induction steps with
  | nil => intro m _ x y h; simp [run_cta] at h
  | cons s rest ih =>
    obtain ⟨t, op⟩ := s
    intro m hch x y hsub
    have hch' : List.Chain' (· ≤ ·) (rest.map Prod.fst) := by
      rw [List.map_cons] at hch
      exact hch.tail
    cases op with
    | turn u b =>
      simp only [run_cta, run_step] at hsub
      exact ih (add_interaction maxI m u b t) hch' x y hsub
    | gate =>
      rcases hg : should_attempt_cta m t with ⟨b, k⟩
      cases b with
      | false =>
        simp only [run_cta, run_step, hg] at hsub
        exact ih m hch' x y hsub
      | true =>
        cases k with
        | none =>
          simp only [run_cta, run_step, hg] at hsub
          exact ih m hch' x y hsub
        | some kind =>
          simp only [run_cta, run_step, hg] at hsub
          cases hsub with
          | cons _ h => exact ih (record_cta_attempt m kind "pending" t) hch' x y h
          | cons₂ _ h =>
            have hy : y ∈ run_cta maxI (record_cta_attempt m kind "pending" t) rest :=
              List.singleton_sublist.mp h
            exact run_cta_after_last maxI rest _ hch' t
              (record_cta_attempt_last m kind "pending" t) y hy

/-- Once the record holds two attempts no older than ts, every grant of
the run comes at least an hour after ts. -/
lemma run_cta_two_attempts (maxI : Nat) :
    ∀ (steps : List (Int × RunOp)) (m : Memory) (ts : Int),
      List.Chain' (· ≤ ·) (steps.map Prod.fst) →
      2 ≤ (m.cta_attempts.filter fun a => decide (ts ≤ a.timestamp)).length →
      ∀ x ∈ run_cta maxI m steps, ts + 3600 ≤ x := by
  intro steps
  induction steps with
  | nil => intro m ts _ _ x hx; simp [run_cta] at hx
  | cons s rest ih =>
    obtain ⟨t, op⟩ := s
    intro m ts hch h2 x hx
    have hch' : List.Chain' (· ≤ ·) (rest.map Prod.fst) := by
      rw [List.map_cons] at hch
      exact hch.tail
    cases op with
    | turn u b =>
      simp only [run_cta, run_step] at hx
      exact ih (add_interaction maxI m u b t) ts hch' (by simpa using h2) x hx
    | gate =>
      rcases hg : should_attempt_cta m t with ⟨b, k⟩
      cases b with
      | false =>
        simp only [run_cta, run_step, hg] at hx
        exact ih m ts hch' h2 x hx
      | true =>
        cases k with
        | none =>
          simp only [run_cta, run_step, hg] at hx
          exact ih m ts hch' h2 x hx
        | some kind =>
          simp only [run_cta, run_step, hg] at hx
          have hts : ts + 3600 ≤ t := by
            by_contra hcon
            push_neg at hcon
            have hsubset :
                (m.cta_attempts.filter fun a => decide (ts ≤ a.timestamp)).length ≤
                  (m.cta_attempts.filter fun a => decide (t - a.timestamp < 3600)).length := by
              rw [← List.countP_eq_length_filter, ← List.countP_eq_length_filter]
              refine List.countP_mono_left ?_
              intro a _ ha
              simp only [decide_eq_true_eq] at ha ⊢
              omega
            have := gate_rate hg
            omega
          rcases List.mem_cons.mp hx with hx | hx
          · omega
          · refine ih (record_cta_attempt m kind "pending" t) ts hch' ?_ x hx
            rw [record_cta_attempt_cta, List.filter_append, List.length_append]
            omega

/-- Once the record holds one attempt no older than ts and all step times
are at least ts, the second grant of any pair comes at least an hour after
ts. -/
lemma run_cta_pair_after_attempt (maxI : Nat) :
    ∀ (steps : List (Int × RunOp)) (m : Memory) (ts : Int),
      List.Chain' (· ≤ ·) (steps.map Prod.fst) →
      (∀ s ∈ steps, ts ≤ s.1) →
      1 ≤ (m.cta_attempts.filter fun a => decide (ts ≤ a.timestamp)).length →
      ∀ y z, List.Sublist [y, z] (run_cta maxI m steps) → ts + 3600 ≤ z := by
  intro steps
  induction steps with
  | nil => intro m ts _ _ _ y z h; simp [run_cta] at h
  | cons s rest ih =>
    obtain ⟨t, op⟩ := s
    intro m ts hch hlb h1 y z hsub
    have hch' : List.Chain' (· ≤ ·) (rest.map Prod.fst) := by
      rw [List.map_cons] at hch
      exact hch.tail
    have hlb' : ∀ s ∈ rest, ts ≤ s.1 := fun s hs => hlb s (List.mem_cons_of_mem _ hs)
    cases op with
    | turn u b =>
      simp only [run_cta, run_step] at hsub
      exact ih (add_interaction maxI m u b t) ts hch' hlb' (by simpa using h1) y z hsub
    | gate =>
      rcases hg : should_attempt_cta m t with ⟨b, k⟩
      cases b with
      | false =>
        simp only [run_cta, run_step, hg] at hsub
        exact ih m ts hch' hlb' h1 y z hsub
      | true =>
        cases k with
        | none =>
          simp only [run_cta, run_step, hg] at hsub
          exact ih m ts hch' hlb' h1 y z hsub
        | some kind =>
          simp only [run_cta, run_step, hg] at hsub
          have hts : ts ≤ t := hlb (t, .gate) (List.mem_cons_self _ _)
          have h2 : 2 ≤ ((record_cta_attempt m kind "pending" t).cta_attempts.filter
              fun a => decide (ts ≤ a.timestamp)).length := by
            rw [record_cta_attempt_cta, List.filter_append, List.length_append]
            have : (List.filter (fun a => decide (ts ≤ a.timestamp))
                [(⟨t, kind, lowerStr "pending"⟩ : CtaAttempt)]).length = 1 := by
              simp [List.filter, hts]
            omega
          cases hsub with
          | cons _ h =>
            refine ih (record_cta_attempt m kind "pending" t) ts hch' hlb' ?_ y z h
            rw [record_cta_attempt_cta, List.filter_append, List.length_append]
            omega
          | cons₂ _ h =>
            have hz : z ∈ run_cta maxI (record_cta_attempt m kind "pending" t) rest :=
              List.singleton_sublist.mp h
            exact run_cta_two_attempts maxI rest _ ts hch' h2 z hz

/-- Any three grants of a run span at least an hour. -/
lemma run_cta_triple (maxI : Nat) :
    ∀ (steps : List (Int × RunOp)) (m : Memory),
      List.Chain' (· ≤ ·) (steps.map Prod.fst) →
      ∀ x y z, List.Sublist [x, y, z] (run_cta maxI m steps) → x + 3600 ≤ z := by
  intro steps
  induction steps with
  | nil => intro m _ x y z h; simp [run_cta] at h
  | cons s rest ih =>
    obtain ⟨t, op⟩ := s
    intro m hch x y z hsub
    have hch' : List.Chain' (· ≤ ·) (rest.map Prod.fst) := by
      rw [List.map_cons] at hch
      exact hch.tail
    cases op with
    | turn u b =>
      simp only [run_cta, run_step] at hsub
      exact ih (add_interaction maxI m u b t) hch' x y z hsub
    | gate =>
      rcases hg : should_attempt_cta m t with ⟨b, k⟩
      cases b with
      | false =>
        simp only [run_cta, run_step, hg] at hsub
        exact ih m hch' x y z hsub
      | true =>
        cases k with
        | none =>
          simp only [run_cta, run_step, hg] at hsub
          exact ih m hch' x y z hsub
        | some kind =>
          simp only [run_cta, run_step, hg] at hsub
          cases hsub with
          | cons _ h => exact ih (record_cta_attempt m kind "pending" t) hch' x y z h
          | cons₂ _ h =>
            have hlb' : ∀ s ∈ rest, t ≤ s.1 := by
              intro s hs
              rw [List.map_cons] at hch
              exact chain_le_head hch s.1 (List.mem_map_of_mem Prod.fst hs)
            have h1 : 1 ≤ ((record_cta_attempt m kind "pending" t).cta_attempts.filter
                fun a => decide (t ≤ a.timestamp)).length := by
              rw [record_cta_attempt_cta, List.filter_append, List.length_append]
              have : (List.filter (fun a => decide (t ≤ a.timestamp))
                  [(⟨t, kind, lowerStr "pending"⟩ : CtaAttempt)]).length = 1 := by
                simp [List.filter]
              omega
            exact run_cta_pair_after_attempt maxI rest _ t hch' hlb' h1 y z h

/-- C6: along any run with non-decreasing query times in which every
granted attempt is recorded, the gate never grants twice within five
minutes (consecutive or not, any two grants are at least 300 seconds
apart) and never grants three times within a rolling hour (any three
grants span at least 3600 seconds). -/
theorem cta_rate_limit (maxI : Nat) (m : Memory) (steps : List (Int × RunOp))
    (hch : List.Chain' (· ≤ ·) (steps.map Prod.fst)) :
    (∀ x y, List.Sublist [x, y] (run_cta maxI m steps) → x + 300 ≤ y) ∧
      (∀ x y z, List.Sublist [x, y, z] (run_cta maxI m steps) → x + 3600 ≤ z) :=
  ⟨fun x y h => run_cta_pair maxI steps m hch x y h,
   fun x y z h => run_cta_triple maxI steps m hch x y z h⟩

/-- C6 witness: a run of three gate queries against an engaged considering
record; all three are granted, spaced 400 and 3600 seconds apart. -/
theorem cta_rate_limit_witness :
    List.Chain' (· ≤ ·)
        (([((0 : Int), RunOp.gate), (400, RunOp.gate),
          (4000, RunOp.gate)]).map Prod.fst) ∧
      run_cta 15 considering_record
          [((0 : Int), RunOp.gate), (400, RunOp.gate), (4000, RunOp.gate)] =
        [0, 400, 4000] ∧
      ((∀ x y, List.Sublist [x, y] (run_cta 15 considering_record
            [((0 : Int), RunOp.gate), (400, RunOp.gate), (4000, RunOp.gate)]) →
          x + 300 ≤ y) ∧
        (∀ x y z, List.Sublist [x, y, z] (run_cta 15 considering_record
            [((0 : Int), RunOp.gate), (400, RunOp.gate), (4000, RunOp.gate)]) →
          x + 3600 ≤ z)) :=
  ⟨by simp [List.chain'_cons], by decide,
    cta_rate_limit 15 considering_record
      [((0 : Int), RunOp.gate), (400, RunOp.gate), (4000, RunOp.gate)]
      (by simp [List.chain'_cons])⟩

end Rusty
